import Mathlib

/-!
Shallow embedding of the Geode-LifeAndWork ink! contract (src/lib.rs,
module life_and_work) and verification of the frozen specification claims.

Modelling conventions:
- AccountId is modelled as Nat (an opaque identity with decidable equality);
  the source constant AccountId::from([0x0; 32]) is modelled as 0.
- Hash is modelled as an inductive type with a constructor sha2 for values
  produced by ink's hash_encoded over Sha2x256 on the SCALE encoding of
  (claimant, claim_contents), and a constructor raw for externally supplied
  256-bit values (the IntellectualProperty fingerprint and Hash::default()).
  Constructor injectivity encodes the collision-resistance assumption the
  spec makes of the external hash primitive.
- u128 quantities (Balance, counters) are Nat together with explicit
  saturating arithmetic at 2 ^ 128 - 1; Nat truncated subtraction coincides
  with u128 saturating_sub on in-range values.
- ink's Mapping is an association list with decidable-equality keys;
  Mapping::insert overwrites in place.  StorageVec is a Lean List.
  Mapping::try_insert is modelled as always succeeding: the spec places the
  persistent storage engine and its buffer limits out of scope.
- Each ink message is a pure function from an environment (caller, the
  contract's native balance, whether a native transfer would succeed) and
  the pre-state to Except Error of an outcome record carrying the
  post-state, the emitted events and the performed native transfers.
  Returning Err from an ink message reverts all storage writes and drops
  all events, so runMessage reverts to the pre-state on error.
-/

namespace life_and_work

/-- Decidable equality for Except results, used to evaluate message
outcomes on concrete inputs. -/
instance exceptDecEq {e a : Type} [DecidableEq e] [DecidableEq a] :
    DecidableEq (Except e a) := fun x y =>
  match x, y with
  | .ok v, .ok w =>
      if h : v = w then .isTrue (by rw [h]) else .isFalse (by simp [h])
  | .error v, .error w =>
      if h : v = w then .isTrue (by rw [h]) else .isFalse (by simp [h])
  | .ok _, .error _ => .isFalse (by simp)
  | .error _, .ok _ => .isFalse (by simp)

/-- u128 maximum value, used by the saturating arithmetic of the source. -/
def U128_MAX : Nat := 2 ^ 128 - 1

/-- Model of u128 saturating_add. -/
def u128_saturating_add (a b : Nat) : Nat := min (a + b) U128_MAX

/-- Model of u128 saturating_sub; Nat subtraction already saturates at 0. -/
def u128_saturating_sub (a b : Nat) : Nat := a - b

/-- Model of u128 checked_rem_euclid: none exactly when the divisor is 0. -/
def u128_checked_rem_euclid (a b : Nat) : Option Nat :=
  if b = 0 then none else some (a % b)

/-- Model of the 256-bit Hash type.  sha2 c m stands for the Sha2x256 hash of
the SCALE encoding of the pair (c, m); raw stands for an externally supplied
or default 256-bit value.  Injectivity of the constructors is the
collision-resistance assumption on the external hash primitive. -/
inductive Hash where
  | sha2 (claimant : Nat) (contents : List Nat) : Hash
  | raw (value : Nat) : Hash
deriving DecidableEq

/-- Model of Hash::default(): the all-zero 256-bit value. -/
def Hash.default : Hash := Hash.raw 0

/-- Error enum of the contract, copied from the source. -/
inductive Error where
  | DuplicateClaim
  | NonexistentClaim
  | DuplicateEndorsement
  | CallerNotOwner
  | DataTooLarge
  | PermissionDenied
  | PayoutFailed
  | ZeroBalance
deriving DecidableEq

/-- Details struct of the source.  The source field named show is renamed
show_flag because show is a Lean keyword; all other field names are kept. -/
structure Details where
  claimtype : Nat
  claimant : Nat
  claim : List Nat
  claim_id : Hash
  endorser_count : Nat
  link : List Nat
  show_flag : Bool
  endorsers : List Nat
deriving DecidableEq

/-- Default for Details, copied from impl Default for Details. -/
def Details.default : Details :=
  { claimtype := 0
    claimant := 0
    claim := []
    claim_id := Hash.default
    endorser_count := 0
    link := []
    show_flag := true
    endorsers := [] }

/-- Claims struct of the source: a vector of claim id hashes. -/
structure Claims where
  claims : List Hash
deriving DecidableEq

/-- Default for Claims: the empty vector. -/
def Claims.default : Claims := { claims := [] }

/-- Events emitted by the contract, one constructor per source event. -/
inductive Event where
  | ClaimMadeExpertise (claimant : Nat) (claim : List Nat) (claim_id : Hash)
  | ClaimMadeWorkHistory (claimant : Nat) (claim : List Nat) (claim_id : Hash)
  | ClaimMadeEducation (claimant : Nat) (claim : List Nat) (claim_id : Hash)
  | ClaimMadeGoodDeed (claimant : Nat) (claim : List Nat) (claim_id : Hash)
  | ClaimMadeIntellectualProperty (claimant : Nat) (claim : List Nat) (claim_id : Hash)
  | ClaimEndorsed (claimant : Nat) (claim_id : Hash) (endorser : Nat)
  | AccountRewardedLifeAndWork (claimant : Nat) (reward : Nat)
deriving DecidableEq

/-- Association-list model of ink's Mapping: first-match lookup. -/
def mapGet {K V : Type} [DecidableEq K] : List (K × V) → K → Option V
  | [], _ => none
  | (k2, v) :: rest, k => if k2 = k then some v else mapGet rest k

/-- Association-list model of Mapping::insert (and of try_insert, which the
embedding treats as always succeeding): overwrite in place, append if new. -/
def mapInsert {K V : Type} [DecidableEq K] : List (K × V) → K → V → List (K × V)
  | [], k, v => [(k, v)]
  | (k2, v2) :: rest, k, v =>
      if k2 = k then (k, v) :: rest else (k2, v2) :: mapInsert rest k v

/-- Association-list model of Mapping::contains. -/
def mapContains {K V : Type} [DecidableEq K] (m : List (K × V)) (k : K) : Bool :=
  (mapGet m k).isSome

/-- ContractStorage struct of the source. -/
structure ContractStorage where
  claim_hashes : List Hash
  claim_details : List (Hash × Details)
  account_claims_expertise : List (Nat × Claims)
  account_claims_education : List (Nat × Claims)
  account_claims_workhistory : List (Nat × Claims)
  account_claims_gooddeeds : List (Nat × Claims)
  account_claims_intellectualproperty : List (Nat × Claims)
  reward_root_set : Nat
  reward_root : Nat
  reward_interval : Nat
  reward_amount : Nat
  reward_on : Nat
  reward_balance : Nat
  reward_payouts : Nat
  claim_counter : Nat
deriving DecidableEq

/-- The new() constructor of the source. -/
def new : ContractStorage :=
  { claim_hashes := []
    claim_details := []
    account_claims_expertise := []
    account_claims_education := []
    account_claims_workhistory := []
    account_claims_gooddeeds := []
    account_claims_intellectualproperty := []
    reward_root_set := 0
    reward_root := 0
    reward_interval := 1000000
    reward_amount := 0
    reward_on := 0
    reward_balance := 0
    reward_payouts := 0
    claim_counter := 0 }

/-- Execution environment of one message call: the caller identity, the
value of self.env().balance(), and whether a native transfer made during
the call would succeed. -/
structure Env where
  caller : Nat
  balance : Nat
  transfer_ok : Bool
deriving DecidableEq

/-- Outcome of a successful message call: the post-state, the events
emitted during the call, and the native transfers (destination, amount)
performed during the call. -/
structure ClaimOutcome where
  state : ContractStorage
  events : List Event
  transfers : List (Nat × Nat)
deriving DecidableEq

/-- The REWARD PROGRAM ACTIONS block that the source duplicates verbatim at
the end of each of the five make_claim messages (e.g. lines 332-353 of the
expertise flow): increment claim_counter with saturating_add, then if
reward_on == 1, reward_balance > payout, env.balance() > amount + 10 and
claim_counter has remainder 0 modulo reward_interval (checked_rem_euclid,
none when the interval is 0), transfer the payout to the caller (failing
the whole call with PayoutFailed when the transfer fails), debit
reward_balance, credit reward_payouts, and emit the reward event. -/
def reward_program_actions (env : Env) (caller : Nat) (s : ContractStorage) :
    Except Error (ContractStorage × List Event × List (Nat × Nat)) :=
  let s1 := { s with claim_counter := u128_saturating_add s.claim_counter 1 }
  let min := u128_saturating_add s1.reward_amount 10
  let payout := s1.reward_amount
  if s1.reward_on = 1 ∧ payout < s1.reward_balance ∧ min < env.balance ∧
      u128_checked_rem_euclid s1.claim_counter s1.reward_interval = some 0 then
    if env.transfer_ok then
      let s2 := { s1 with
        reward_balance := u128_saturating_sub s1.reward_balance payout
        reward_payouts := u128_saturating_add s1.reward_payouts payout }
      .ok (s2, [Event.AccountRewardedLifeAndWork caller payout], [(caller, payout)])
    else
      .error .PayoutFailed
  else
    .ok (s1, [], [])

/-- Message make_claim_expertise (claimtype 3). -/
def make_claim_expertise (env : Env)
    (keywords_or_description url_link_to_see_more : List Nat)
    (s : ContractStorage) : Except Error ClaimOutcome :=
  let caller := env.caller
  let currentclaims := (mapGet s.account_claims_expertise caller).getD Claims.default
  if currentclaims.claims.length > 490 then
    .error .DataTooLarge
  else
    let claimant := caller
    let claim_contents := keywords_or_description
    let claim_hash : Hash := Hash.sha2 claimant claim_contents
    if mapContains s.claim_details claim_hash then
      .error .DuplicateClaim
    else
      let new_details : Details :=
        { claimtype := 3
          claimant := caller
          claim := keywords_or_description
          claim_id := claim_hash
          endorser_count := 0
          link := url_link_to_see_more
          show_flag := true
          endorsers := [caller] }
      let s1 := { s with claim_details := mapInsert s.claim_details claim_hash new_details }
      let s2 := { s1 with claim_hashes := s1.claim_hashes ++ [claim_hash] }
      let currentclaims2 := { currentclaims with claims := currentclaims.claims ++ [claim_hash] }
      let s3 := { s2 with account_claims_expertise := mapInsert s2.account_claims_expertise caller currentclaims2 }
      let ev := Event.ClaimMadeExpertise caller new_details.claim claim_hash
      match reward_program_actions env caller s3 with
      | .error e => .error e
      | .ok (s4, revs, trs) => .ok { state := s4, events := ev :: revs, transfers := trs }

/-- Message make_claim_workhistory (claimtype 1). -/
def make_claim_workhistory (env : Env)
    (keywords_or_description url_link_to_see_more : List Nat)
    (s : ContractStorage) : Except Error ClaimOutcome :=
  let caller := env.caller
  let currentclaims := (mapGet s.account_claims_workhistory caller).getD Claims.default
  if currentclaims.claims.length > 490 then
    .error .DataTooLarge
  else
    let claimant := caller
    let claim_contents := keywords_or_description
    let claim_hash : Hash := Hash.sha2 claimant claim_contents
    if mapContains s.claim_details claim_hash then
      .error .DuplicateClaim
    else
      let new_details : Details :=
        { claimtype := 1
          claimant := caller
          claim := keywords_or_description
          claim_id := claim_hash
          endorser_count := 0
          link := url_link_to_see_more
          show_flag := true
          endorsers := [caller] }
      let s1 := { s with claim_details := mapInsert s.claim_details claim_hash new_details }
      let s2 := { s1 with claim_hashes := s1.claim_hashes ++ [claim_hash] }
      let currentclaims2 := { currentclaims with claims := currentclaims.claims ++ [claim_hash] }
      let s3 := { s2 with account_claims_workhistory := mapInsert s2.account_claims_workhistory caller currentclaims2 }
      let ev := Event.ClaimMadeWorkHistory caller new_details.claim claim_hash
      match reward_program_actions env caller s3 with
      | .error e => .error e
      | .ok (s4, revs, trs) => .ok { state := s4, events := ev :: revs, transfers := trs }

/-- Message make_claim_education (claimtype 2). -/
def make_claim_education (env : Env)
    (keywords_or_description url_link_to_see_more : List Nat)
    (s : ContractStorage) : Except Error ClaimOutcome :=
  let caller := env.caller
  let currentclaims := (mapGet s.account_claims_education caller).getD Claims.default
  if currentclaims.claims.length > 490 then
    .error .DataTooLarge
  else
    let claimant := caller
    let claim_contents := keywords_or_description
    let claim_hash : Hash := Hash.sha2 claimant claim_contents
    if mapContains s.claim_details claim_hash then
      .error .DuplicateClaim
    else
      let new_details : Details :=
        { claimtype := 2
          claimant := caller
          claim := keywords_or_description
          claim_id := claim_hash
          endorser_count := 0
          link := url_link_to_see_more
          show_flag := true
          endorsers := [caller] }
      let s1 := { s with claim_details := mapInsert s.claim_details claim_hash new_details }
      let s2 := { s1 with claim_hashes := s1.claim_hashes ++ [claim_hash] }
      let currentclaims2 := { currentclaims with claims := currentclaims.claims ++ [claim_hash] }
      let s3 := { s2 with account_claims_education := mapInsert s2.account_claims_education caller currentclaims2 }
      let ev := Event.ClaimMadeEducation caller new_details.claim claim_hash
      match reward_program_actions env caller s3 with
      | .error e => .error e
      | .ok (s4, revs, trs) => .ok { state := s4, events := ev :: revs, transfers := trs }

/-- Message make_claim_gooddeed (claimtype 4). -/
def make_claim_gooddeed (env : Env)
    (keywords_or_description url_link_to_see_more : List Nat)
    (s : ContractStorage) : Except Error ClaimOutcome :=
  let caller := env.caller
  let currentclaims := (mapGet s.account_claims_gooddeeds caller).getD Claims.default
  if currentclaims.claims.length > 490 then
    .error .DataTooLarge
  else
    let claimant := caller
    let claim_contents := keywords_or_description
    let claim_hash : Hash := Hash.sha2 claimant claim_contents
    if mapContains s.claim_details claim_hash then
      .error .DuplicateClaim
    else
      let new_details : Details :=
        { claimtype := 4
          claimant := caller
          claim := keywords_or_description
          claim_id := claim_hash
          endorser_count := 0
          link := url_link_to_see_more
          show_flag := true
          endorsers := [caller] }
      let s1 := { s with claim_details := mapInsert s.claim_details claim_hash new_details }
      let s2 := { s1 with claim_hashes := s1.claim_hashes ++ [claim_hash] }
      let currentclaims2 := { currentclaims with claims := currentclaims.claims ++ [claim_hash] }
      let s3 := { s2 with account_claims_gooddeeds := mapInsert s2.account_claims_gooddeeds caller currentclaims2 }
      let ev := Event.ClaimMadeGoodDeed caller new_details.claim claim_hash
      match reward_program_actions env caller s3 with
      | .error e => .error e
      | .ok (s4, revs, trs) => .ok { state := s4, events := ev :: revs, transfers := trs }

/-- Message make_claim_intellectualproperty (claimtype 5); the fingerprint is
the caller-supplied hash rather than being derived. -/
def make_claim_intellectualproperty (env : Env)
    (keywords_or_description url_link_to_see_more : List Nat)
    (hash_your_intellectual_property_file_here : Hash)
    (s : ContractStorage) : Except Error ClaimOutcome :=
  let caller := env.caller
  let currentclaims := (mapGet s.account_claims_intellectualproperty caller).getD Claims.default
  if currentclaims.claims.length > 490 then
    .error .DataTooLarge
  else
    let claim_hash := hash_your_intellectual_property_file_here
    if mapContains s.claim_details claim_hash then
      .error .DuplicateClaim
    else
      let new_details : Details :=
        { claimtype := 5
          claimant := caller
          claim := keywords_or_description
          claim_id := claim_hash
          endorser_count := 0
          link := url_link_to_see_more
          show_flag := true
          endorsers := [caller] }
      let s1 := { s with claim_details := mapInsert s.claim_details claim_hash new_details }
      let s2 := { s1 with claim_hashes := s1.claim_hashes ++ [claim_hash] }
      let currentclaims2 := { currentclaims with claims := currentclaims.claims ++ [claim_hash] }
      let s3 := { s2 with account_claims_intellectualproperty := mapInsert s2.account_claims_intellectualproperty caller currentclaims2 }
      let ev := Event.ClaimMadeIntellectualProperty caller new_details.claim claim_hash
      match reward_program_actions env caller s3 with
      | .error e => .error e
      | .ok (s4, revs, trs) => .ok { state := s4, events := ev :: revs, transfers := trs }

/-- Message endorse_claim: checks existence, duplicate endorsement, then
appends the caller and increments endorser_count with saturating_add only
when the endorser vector currently has fewer than 490 entries; the
endorsement event is emitted and Ok returned in either case. -/
def endorse_claim (env : Env) (claim_id : Hash) (s : ContractStorage) :
    Except Error ClaimOutcome :=
  if mapContains s.claim_details claim_id then
    let caller := env.caller
    let current_details := (mapGet s.claim_details claim_id).getD Details.default
    if caller ∈ current_details.endorsers then
      .error .DuplicateEndorsement
    else
      let s2 :=
        if current_details.endorsers.length < 490 then
          let new_endorser_count := u128_saturating_add current_details.endorser_count 1
          let updated_details : Details :=
            { claimtype := current_details.claimtype
              claimant := current_details.claimant
              claim := current_details.claim
              claim_id := claim_id
              endorser_count := new_endorser_count
              link := current_details.link
              show_flag := current_details.show_flag
              endorsers := current_details.endorsers ++ [caller] }
          { s with claim_details := mapInsert s.claim_details claim_id updated_details }
        else
          s
      .ok { state := s2
            events := [Event.ClaimEndorsed current_details.claimant claim_id env.caller]
            transfers := [] }
  else
    .error .NonexistentClaim

/-- Message show_or_hide_claim: reads the record with unwrap_or_default,
requires the caller to equal its claimant, then re-inserts the record with
the show flag replaced; no event is emitted. -/
def show_or_hide_claim (env : Env) (claim_id : Hash) (set_to_show : Bool)
    (s : ContractStorage) : Except Error ClaimOutcome :=
  let caller := env.caller
  let details := (mapGet s.claim_details claim_id).getD Details.default
  if details.claimant = caller then
    let updated_details : Details :=
      { claimtype := details.claimtype
        claimant := details.claimant
        claim := details.claim
        claim_id := claim_id
        endorser_count := details.endorser_count
        link := details.link
        show_flag := set_to_show
        endorsers := details.endorsers }
    .ok { state := { s with claim_details := mapInsert s.claim_details claim_id updated_details }
          events := []
          transfers := [] }
  else
    .error .CallerNotOwner

/-- Message set_reward_roots: anyone may set the root while reward_root_set
is not 1; afterwards only the current root may, anyone else gets
PermissionDenied. -/
def set_reward_roots (env : Env) (newroot : Nat) (s : ContractStorage) :
    Except Error ClaimOutcome :=
  let caller := env.caller
  if s.reward_root_set ≠ 1 ∨ s.reward_root = caller then
    .ok { state := { s with reward_root := newroot, reward_root_set := 1 }
          events := []
          transfers := [] }
  else
    .error .PermissionDenied

/-- Validity of a byte sequence as UTF-8, as checked by Rust
String::from_utf8: one-byte ASCII, two-byte C2..DF, three-byte E0/E1..EC/
ED (surrogates excluded)/EE..EF, four-byte F0/F1..F3/F4, each with the
required continuation-byte ranges. -/
def validUtf8 : List Nat → Bool
  | [] => true
  | b :: rest =>
    if b ≤ 0x7F then
      validUtf8 rest
    else if 0xC2 ≤ b ∧ b ≤ 0xDF then
      match rest with
      | c1 :: rest2 => (0x80 ≤ c1 && c1 ≤ 0xBF) && validUtf8 rest2
      | _ => false
    else if b = 0xE0 then
      match rest with
      | c1 :: c2 :: rest2 =>
          (0xA0 ≤ c1 && c1 ≤ 0xBF) && (0x80 ≤ c2 && c2 ≤ 0xBF) && validUtf8 rest2
      | _ => false
    else if (0xE1 ≤ b ∧ b ≤ 0xEC) ∨ b = 0xEE ∨ b = 0xEF then
      match rest with
      | c1 :: c2 :: rest2 =>
          (0x80 ≤ c1 && c1 ≤ 0xBF) && (0x80 ≤ c2 && c2 ≤ 0xBF) && validUtf8 rest2
      | _ => false
    else if b = 0xED then
      match rest with
      | c1 :: c2 :: rest2 =>
          (0x80 ≤ c1 && c1 ≤ 0x9F) && (0x80 ≤ c2 && c2 ≤ 0xBF) && validUtf8 rest2
      | _ => false
    else if b = 0xF0 then
      match rest with
      | c1 :: c2 :: c3 :: rest2 =>
          (0x90 ≤ c1 && c1 ≤ 0xBF) && (0x80 ≤ c2 && c2 ≤ 0xBF) &&
            (0x80 ≤ c3 && c3 ≤ 0xBF) && validUtf8 rest2
      | _ => false
    else if 0xF1 ≤ b ∧ b ≤ 0xF3 then
      match rest with
      | c1 :: c2 :: c3 :: rest2 =>
          (0x80 ≤ c1 && c1 ≤ 0xBF) && (0x80 ≤ c2 && c2 ≤ 0xBF) &&
            (0x80 ≤ c3 && c3 ≤ 0xBF) && validUtf8 rest2
      | _ => false
    else if b = 0xF4 then
      match rest with
      | c1 :: c2 :: c3 :: rest2 =>
          (0x80 ≤ c1 && c1 ≤ 0x8F) && (0x80 ≤ c2 && c2 ≤ 0xBF) &&
            (0x80 ≤ c3 && c3 ≤ 0xBF) && validUtf8 rest2
      | _ => false
    else
      false

/-- Model of String::from_utf8(bytes).unwrap_or_default(): a valid byte
sequence decodes to a string with exactly those bytes, an invalid one is
replaced by the empty string.  Strings are represented by their UTF-8
bytes, which is what Rust substring containment operates on. -/
def string_from_utf8 (bytes : List Nat) : List Nat :=
  if validUtf8 bytes then bytes else []

/-- Model of str::contains on UTF-8 byte representations: a needle occurs
as a contiguous byte subsequence of the haystack (for valid UTF-8 this
coincides with Rust substring containment, by UTF-8 self-synchronisation).
The empty needle is contained in everything. -/
def substring_contains (haystack needle : List Nat) : Bool :=
  if needle.isPrefixOf haystack then true
  else
    match haystack with
    | [] => false
    | _ :: t => substring_contains t needle

/-- Loop body of get_matching_claims over the claim_hashes vector: look up
each hash (unwrap_or_default), decode its claim bytes, and keep the record
when the decoded claim contains the search string. -/
def matching_loop (s : ContractStorage) (searchstring : List Nat) :
    List Hash → List Details
  | [] => []
  | claimidhash :: rest =>
    let resumeitem := (mapGet s.claim_details claimidhash).getD Details.default
    let claimstring := string_from_utf8 resumeitem.claim
    if substring_contains claimstring searchstring then
      resumeitem :: matching_loop s searchstring rest
    else
      matching_loop s searchstring rest

/-- Message get_matching_claims: decode the query with unwrap_or_default
and scan the claim_hashes vector in order. -/
def get_matching_claims (keywords : List Nat) (s : ContractStorage) : List Details :=
  let searchstring := string_from_utf8 keywords
  matching_loop s searchstring s.claim_hashes

/-- Call-level semantics of one message: on Ok the new state and events are
committed; on Err ink reverts every storage write and drops every event,
so the pre-state is kept and the error reported. -/
def runMessage (s : ContractStorage) (r : Except Error ClaimOutcome) :
    ContractStorage × List Event × Option Error :=
  match r with
  | .ok o => (o.state, o.events, none)
  | .error e => (s, [], some e)

/-- Sequential submission of a list of claim contents through
make_claim_expertise, collecting all events; stops at the first error. -/
def run_claims_expertise (env : Env) (s : ContractStorage) :
    List (List Nat) → Except Error (ContractStorage × List Event)
  | [] => .ok (s, [])
  | c :: rest =>
    match make_claim_expertise env c [] s with
    | .error e => .error e
    | .ok o =>
      match run_claims_expertise env o.state rest with
      | .error e => .error e
      | .ok (s2, evs) => .ok (s2, o.events ++ evs)

/-- Number of reward events in an event list. -/
def count_reward_events (evs : List Event) : Nat :=
  (evs.filter fun e =>
    match e with
    | .AccountRewardedLifeAndWork _ _ => true
    | _ => false).length

/-- The reward-trigger condition of the spec, phrased on the pre-call
state: program enabled, balance strictly above the amount, contract funds
strictly above amount + 10, and the incremented claim counter a multiple
of a nonzero interval. -/
def reward_trigger (env : Env) (s : ContractStorage) : Prop :=
  s.reward_on = 1 ∧ s.reward_amount < s.reward_balance ∧
    s.reward_amount + 10 < env.balance ∧ s.reward_interval ≠ 0 ∧
    (s.claim_counter + 1) % s.reward_interval = 0

instance (env : Env) (s : ContractStorage) : Decidable (reward_trigger env s) := by
  unfold reward_trigger; infer_instance

/-- Endorser-count invariant over the record table: every stored record
has endorser_count + 1 = number of endorsers (count = number of endorsers
other than the claimant member, who is stored first). -/
def claim_details_inv (m : List (Hash × Details)) : Prop :=
  ∀ p ∈ m, p.2.endorser_count + 1 = p.2.endorsers.length

instance (m : List (Hash × Details)) : Decidable (claim_details_inv m) := by
  unfold claim_details_inv; infer_instance

/-- The endorser-count invariant of the whole contract state. -/
def storeInv (s : ContractStorage) : Prop :=
  claim_details_inv s.claim_details

instance (s : ContractStorage) : Decidable (storeInv s) := by
  unfold storeInv; infer_instance

-- Concrete states, environments and records used by witnesses and counterexamples.

/-- The Claim record constructed by make_claim_expertise for a given
caller, content and link. -/
def expertise_claim_record (env : Env) (c l : List Nat) : Details :=
  { claimtype := 3, claimant := env.caller, claim := c,
    claim_id := Hash.sha2 env.caller c, endorser_count := 0, link := l,
    show_flag := true, endorsers := [env.caller] }

/-- Record with a full (490-entry) endorser vector for the C6 witness. -/
def c6_d : Details :=
  { claimtype := 3, claimant := 0, claim := [1], claim_id := Hash.raw 6,
    endorser_count := 489, link := [], show_flag := true, endorsers := List.range 490 }

/-- Contract state holding the single full record of the C6 witness. -/
def c6_s : ContractStorage := { new with claim_details := [(Hash.raw 6, c6_d)] }

/-- Stored record for the C8 witness, owned by account 2. -/
def c8_d : Details :=
  { claimtype := 3, claimant := 2, claim := [1], claim_id := Hash.raw 7,
    endorser_count := 0, link := [], show_flag := true, endorsers := [2] }

/-- Contract state holding the single record of the C8 witness. -/
def c8_s : ContractStorage := { new with claim_details := [(Hash.raw 7, c8_d)] }

/-- One-record registry for the C10 witness. -/
def c10_s : ContractStorage :=
  { new with
    claim_hashes := [Hash.sha2 4 [65]],
    claim_details := [(Hash.sha2 4 [65],
      { claimtype := 3, claimant := 4, claim := [65], claim_id := Hash.sha2 4 [65],
        endorser_count := 0, link := [], show_flag := true, endorsers := [4] })] }

/-- Endorser list and environment for the C1 counterexample: a stored
record whose endorser vector already has exactly 490 entries. -/
def c1_details : Details :=
  { claimtype := 3, claimant := 0, claim := [1], claim_id := Hash.raw 5,
    endorser_count := 489, link := [], show_flag := true, endorsers := List.range 490 }

/-- Contract state holding the single record of the C1 counterexample. -/
def c1_s : ContractStorage := { new with claim_details := [(Hash.raw 5, c1_details)] }

/-- Caller for the C1 counterexample, not a member of the endorser list. -/
def c1_env : Env := { caller := 1000, balance := 0, transfer_ok := true }

/-- Stored one-endorser record for the amended-C1 witness. -/
def c1w_d : Details :=
  { claimtype := 3, claimant := 2, claim := [1], claim_id := Hash.raw 8,
    endorser_count := 0, link := [], show_flag := true, endorsers := [2] }

/-- Contract state holding the single record of the amended-C1 witness. -/
def c1w_s : ContractStorage := { new with claim_details := [(Hash.raw 8, c1w_d)] }

/-- Expertise fingerprints of the 490 claims pre-loaded in the C4
boundary-state counterexample. -/
def c4_hashes : List Hash := (List.range 490).map (fun i => Hash.sha2 7 [i])

/-- Boundary state for C4 and C5: account 7 already holds exactly 490
expertise claims (records, ledger and index all consistent). -/
def c4_s : ContractStorage :=
  { new with
    claim_hashes := c4_hashes,
    claim_details := (List.range 490).map (fun i => (Hash.sha2 7 [i],
      { claimtype := 3, claimant := 7, claim := [i], claim_id := Hash.sha2 7 [i],
        endorser_count := 0, link := [], show_flag := true, endorsers := [7] })),
    account_claims_expertise := [(7, { claims := c4_hashes })] }

/-- Caller environment for the C4 counterexample. -/
def c4_env : Env := { caller := 7, balance := 0, transfer_ok := true }

/-- Education fingerprints of the 491 claims pre-loaded in the C9
counterexample state. -/
def c9_ed_hashes : List Hash := (List.range 491).map (fun i => Hash.sha2 7 [1, i])

/-- State for the C9 counterexample: account 7 already holds 491 education
claims (records, ledger and index consistent), none with content 9. -/
def c9_s : ContractStorage :=
  { new with
    claim_hashes := c9_ed_hashes,
    claim_details := (List.range 491).map (fun i => (Hash.sha2 7 [1, i],
      { claimtype := 2, claimant := 7, claim := [1, i], claim_id := Hash.sha2 7 [1, i],
        endorser_count := 0, link := [], show_flag := true, endorsers := [7] })),
    account_claims_education := [(7, { claims := c9_ed_hashes })] }

/-- Caller environment for the C9 counterexample. -/
def c9_env : Env := { caller := 7, balance := 0, transfer_ok := true }

/-- One-expertise-claim state for the C9 witness: content 1 of account 7
is already registered. -/
def c9w_s : ContractStorage :=
  { new with
    claim_hashes := [Hash.sha2 7 [1]],
    claim_details := [(Hash.sha2 7 [1],
      { claimtype := 3, claimant := 7, claim := [1], claim_id := Hash.sha2 7 [1],
        endorser_count := 0, link := [], show_flag := true, endorsers := [7] })],
    account_claims_expertise := [(7, { claims := [Hash.sha2 7 [1]] })] }

/-- Degenerate record that a show_or_hide_claim call by the all-zero
account on a fingerprint absent from the record table inserts: the default
record with the claim_id field set to the requested fingerprint. -/
def c3_degenerate : Details :=
  { claimtype := 0, claimant := 0, claim := [], claim_id := Hash.raw 3,
    endorser_count := 0, link := [], show_flag := true, endorsers := [] }

/-- Caller environment of the C2 five-submission scenario; the contract
holds ample native balance. -/
def c2_env : Env := { caller := 11, balance := 1000000, transfer_ok := true }

/-- Reward configuration of the C2 scenario: enabled, interval 5, amount
100, funded with 1000. -/
def c2_s5 : ContractStorage :=
  { new with
    reward_on := 1, reward_interval := 5, reward_amount := 100,
    reward_balance := 1000 }

/-- Reward configuration for the C2 witness: enabled with interval 1, so
the very next accepted submission triggers a payout. -/
def c2w_s : ContractStorage :=
  { new with
    reward_on := 1, reward_interval := 1, reward_amount := 100,
    reward_balance := 1000 }

-- Helper lemmas about the association-list Mapping model.

lemma mapGet_insert_self {K V : Type} [DecidableEq K] :
    ∀ (m : List (K × V)) (k : K) (v : V), mapGet (mapInsert m k v) k = some v
  | [], k, v => by simp [mapInsert, mapGet]
  | (k2, v2) :: rest, k, v => by
    by_cases h : k2 = k
    · simp [mapInsert, h, mapGet]
    · simp [mapInsert, h, mapGet, mapGet_insert_self rest k v]

lemma mapGet_insert_ne {K V : Type} [DecidableEq K] :
    ∀ (m : List (K × V)) (k k2 : K) (v : V), k2 ≠ k →
      mapGet (mapInsert m k v) k2 = mapGet m k2
  | [], k, k2, v, h => by simp [mapInsert, mapGet, Ne.symm h]
  | (k3, v3) :: rest, k, k2, v, h => by
    by_cases h3 : k3 = k
    · subst h3; simp [mapInsert, mapGet, Ne.symm h]
    · by_cases h2 : k3 = k2
      · simp [mapInsert, h3, mapGet, h2, h]
      · simp [mapInsert, h3, mapGet, h2, mapGet_insert_ne rest k k2 v h]

lemma mapGet_mem {K V : Type} [DecidableEq K] :
    ∀ (m : List (K × V)) (k : K) (v : V), mapGet m k = some v → (k, v) ∈ m
  | [], k, v, h => by simp [mapGet] at h
  | (k2, v2) :: rest, k, v, h => by
    by_cases h2 : k2 = k
    · subst h2
      simp [mapGet] at h
      simp [h]
    · simp [mapGet, h2] at h
      exact List.mem_cons_of_mem _ (mapGet_mem rest k v h)

lemma mem_mapInsert {K V : Type} [DecidableEq K] :
    ∀ (m : List (K × V)) (k : K) (v : V) (p : K × V),
      p ∈ mapInsert m k v → p = (k, v) ∨ p ∈ m
  | [], k, v, p, h => by simpa [mapInsert] using h
  | (k2, v2) :: rest, k, v, p, h => by
    by_cases h2 : k2 = k
    · simp [mapInsert, h2] at h
      rcases h with h | h
      · exact Or.inl (by simp [h])
      · exact Or.inr (List.mem_cons_of_mem _ h)
    · simp [mapInsert, h2] at h
      rcases h with h | h
      · exact Or.inr (by simp [h])
      · rcases mem_mapInsert rest k v p h with h3 | h3
        · exact Or.inl h3
        · exact Or.inr (List.mem_cons_of_mem _ h3)

lemma claim_details_inv_insert {m : List (Hash × Details)} {k : Hash} {v : Details}
    (hm : claim_details_inv m) (hv : v.endorser_count + 1 = v.endorsers.length) :
    claim_details_inv (mapInsert m k v) := by
  intro p hp
  rcases mem_mapInsert m k v p hp with h | h
  · subst h; exact hv
  · exact hm p h

lemma substring_contains_nil : ∀ cs : List Nat, substring_contains cs [] = true := by
  intro cs; cases cs <;> rfl

lemma matching_loop_nil_needle (s : ContractStorage) :
    ∀ hs : List Hash, matching_loop s [] hs =
      hs.map (fun h2 => (mapGet s.claim_details h2).getD Details.default)
  | [] => rfl
  | h2 :: t => by
      simp [matching_loop, substring_contains_nil, matching_loop_nil_needle s t]

-- Lemmas about the reward hook and the shared submission flow.

lemma rpa_error_only_payout (env : Env) (caller : Nat) (s : ContractStorage) (e : Error)
    (h : reward_program_actions env caller s = .error e) : e = .PayoutFailed := by
  simp only [reward_program_actions] at h
  split at h
  · split at h
    · simp at h
    · simp only [Except.error.injEq] at h
      exact h.symm
  · simp at h

lemma rpa_no_error_of_transfer_ok (env : Env) (caller : Nat) (s : ContractStorage)
    (ht : env.transfer_ok = true) (e : Error) :
    reward_program_actions env caller s ≠ .error e := by
  simp only [reward_program_actions]
  split <;> simp_all

lemma rpa_ok_frame (env : Env) (caller : Nat) (s s4 : ContractStorage)
    (revs : List Event) (trs : List (Nat × Nat))
    (h : reward_program_actions env caller s = .ok (s4, revs, trs)) :
    s4.claim_details = s.claim_details ∧ s4.claim_hashes = s.claim_hashes ∧
    s4.account_claims_expertise = s.account_claims_expertise ∧
    s4.account_claims_education = s.account_claims_education ∧
    s4.account_claims_workhistory = s.account_claims_workhistory ∧
    s4.account_claims_gooddeeds = s.account_claims_gooddeeds ∧
    s4.account_claims_intellectualproperty = s.account_claims_intellectualproperty := by
  simp only [reward_program_actions] at h
  split_ifs at h <;>
    · simp only [Except.ok.injEq, Prod.mk.injEq] at h
      obtain ⟨h1, -, -⟩ := h
      subst h1
      exact ⟨rfl, rfl, rfl, rfl, rfl, rfl, rfl⟩

lemma make_claim_expertise_isOk (env : Env) (c l : List Nat) (s : ContractStorage)
    (hlen : ((mapGet s.account_claims_expertise env.caller).getD Claims.default).claims.length ≤ 490)
    (hfresh : mapContains s.claim_details (Hash.sha2 env.caller c) = false)
    (ht : env.transfer_ok = true) :
    ∃ o, make_claim_expertise env c l s = .ok o := by
  simp only [make_claim_expertise]
  rw [if_neg (by omega)]
  rw [if_neg (by simp [hfresh])]
  split
  · rename_i e heq
    exact absurd heq (rpa_no_error_of_transfer_ok env env.caller _ ht e)
  · exact ⟨_, rfl⟩

lemma make_claim_expertise_ok_spec (env : Env) (c l : List Nat) (s : ContractStorage)
    (o : ClaimOutcome) (h : make_claim_expertise env c l s = .ok o) :
    o.state.claim_details =
      mapInsert s.claim_details (Hash.sha2 env.caller c) (expertise_claim_record env c l) ∧
    o.state.claim_hashes = s.claim_hashes ++ [Hash.sha2 env.caller c] ∧
    o.state.account_claims_expertise = mapInsert s.account_claims_expertise env.caller
      { claims := ((mapGet s.account_claims_expertise env.caller).getD Claims.default).claims
          ++ [Hash.sha2 env.caller c] } ∧
    o.state.account_claims_education = s.account_claims_education ∧
    o.state.account_claims_workhistory = s.account_claims_workhistory ∧
    o.state.account_claims_gooddeeds = s.account_claims_gooddeeds ∧
    o.state.account_claims_intellectualproperty = s.account_claims_intellectualproperty := by
  simp only [make_claim_expertise] at h
  split_ifs at h
  split at h
  · simp at h
  · rename_i s4 revs trs heq
    simp only [Except.ok.injEq] at h
    subst h
    obtain ⟨h1, h2, h3, h4, h5, h6, h7⟩ := rpa_ok_frame env env.caller _ s4 revs trs heq
    exact ⟨h1, h2, h3, h4, h5, h6, h7⟩

lemma make_claim_expertise_over_capacity (env : Env) (c l : List Nat) (s : ContractStorage)
    (hlen : 490 < ((mapGet s.account_claims_expertise env.caller).getD Claims.default).claims.length) :
    make_claim_expertise env c l s = .error Error.DataTooLarge := by
  simp only [make_claim_expertise]
  rw [if_pos (by omega)]

lemma make_claim_expertise_duplicate (env : Env) (c l : List Nat) (s : ContractStorage)
    (hlen : ((mapGet s.account_claims_expertise env.caller).getD Claims.default).claims.length ≤ 490)
    (hdup : mapContains s.claim_details (Hash.sha2 env.caller c) = true) :
    make_claim_expertise env c l s = .error Error.DuplicateClaim := by
  simp only [make_claim_expertise]
  rw [if_neg (by omega), if_pos hdup]

lemma make_claim_education_duplicate (env : Env) (c l : List Nat) (s : ContractStorage)
    (hlen : ((mapGet s.account_claims_education env.caller).getD Claims.default).claims.length ≤ 490)
    (hdup : mapContains s.claim_details (Hash.sha2 env.caller c) = true) :
    make_claim_education env c l s = .error Error.DuplicateClaim := by
  simp only [make_claim_education]
  rw [if_neg (by omega), if_pos hdup]

lemma make_claim_workhistory_duplicate (env : Env) (c l : List Nat) (s : ContractStorage)
    (hlen : ((mapGet s.account_claims_workhistory env.caller).getD Claims.default).claims.length ≤ 490)
    (hdup : mapContains s.claim_details (Hash.sha2 env.caller c) = true) :
    make_claim_workhistory env c l s = .error Error.DuplicateClaim := by
  simp only [make_claim_workhistory]
  rw [if_neg (by omega), if_pos hdup]

lemma make_claim_gooddeed_duplicate (env : Env) (c l : List Nat) (s : ContractStorage)
    (hlen : ((mapGet s.account_claims_gooddeeds env.caller).getD Claims.default).claims.length ≤ 490)
    (hdup : mapContains s.claim_details (Hash.sha2 env.caller c) = true) :
    make_claim_gooddeed env c l s = .error Error.DuplicateClaim := by
  simp only [make_claim_gooddeed]
  rw [if_neg (by omega), if_pos hdup]

lemma u128_saturating_add_one_of_lt {a : Nat} (ha : a < U128_MAX) :
    u128_saturating_add a 1 = a + 1 := by
  unfold u128_saturating_add
  omega

lemma U128_MAX_large : 1000 ≤ U128_MAX := by
  unfold U128_MAX
  norm_num

lemma rpa_ok_spec (env : Env) (caller : Nat) (s s4 : ContractStorage)
    (revs : List Event) (trs : List (Nat × Nat))
    (heq : reward_program_actions env caller s = .ok (s4, revs, trs))
    (hc : s.claim_counter < U128_MAX) (ha : s.reward_amount + 10 ≤ U128_MAX) :
    s4.claim_counter = s.claim_counter + 1 ∧
    (reward_trigger env s →
      s4.reward_balance = s.reward_balance - s.reward_amount ∧
      s4.reward_payouts = u128_saturating_add s.reward_payouts s.reward_amount ∧
      revs = [Event.AccountRewardedLifeAndWork caller s.reward_amount] ∧
      trs = [(caller, s.reward_amount)]) ∧
    (¬ reward_trigger env s →
      s4.reward_balance = s.reward_balance ∧
      s4.reward_payouts = s.reward_payouts ∧
      revs = [] ∧ trs = []) := by
  simp only [reward_program_actions] at heq
  have h1 : u128_saturating_add s.claim_counter 1 = s.claim_counter + 1 :=
    u128_saturating_add_one_of_lt hc
  have h2 : u128_saturating_add s.reward_amount 10 = s.reward_amount + 10 := by
    unfold u128_saturating_add
    omega
  rw [h1, h2] at heq
  split at heq
  · rename_i hcond
    split at heq
    · simp only [Except.ok.injEq, Prod.mk.injEq] at heq
      obtain ⟨hs4, hrevs, htrs⟩ := heq
      subst hs4
      have htr : reward_trigger env s := by
        obtain ⟨u1, u2, u3, u4⟩ := hcond
        unfold u128_checked_rem_euclid at u4
        by_cases hz : s.reward_interval = 0
        · rw [if_pos hz] at u4
          simp at u4
        · rw [if_neg hz] at u4
          simp only [Option.some.injEq] at u4
          exact ⟨u1, u2, u3, hz, u4⟩
      exact ⟨rfl, fun _ => ⟨rfl, rfl, hrevs.symm, htrs.symm⟩, fun hn => absurd htr hn⟩
    · simp at heq
  · rename_i hcond
    simp only [Except.ok.injEq, Prod.mk.injEq] at heq
    obtain ⟨hs4, hrevs, htrs⟩ := heq
    subst hs4
    have hntr : ¬ reward_trigger env s := by
      rintro ⟨u1, u2, u3, u4, u5⟩
      exact hcond ⟨u1, u2, u3, by unfold u128_checked_rem_euclid; rw [if_neg u4, u5]⟩
    exact ⟨rfl, fun h => absurd h hntr, fun _ => ⟨rfl, rfl, hrevs.symm, htrs.symm⟩⟩

lemma make_claim_expertise_reward_spec (env : Env) (c l : List Nat)
    (s : ContractStorage) (o : ClaimOutcome)
    (h : make_claim_expertise env c l s = .ok o)
    (hc : s.claim_counter < U128_MAX) (ha : s.reward_amount + 10 ≤ U128_MAX) :
    o.state.claim_counter = s.claim_counter + 1 ∧
    (reward_trigger env s →
      o.state.reward_balance = s.reward_balance - s.reward_amount ∧
      o.state.reward_payouts = u128_saturating_add s.reward_payouts s.reward_amount ∧
      o.events = [Event.ClaimMadeExpertise env.caller c (Hash.sha2 env.caller c),
                  Event.AccountRewardedLifeAndWork env.caller s.reward_amount] ∧
      o.transfers = [(env.caller, s.reward_amount)]) ∧
    (¬ reward_trigger env s →
      o.state.reward_balance = s.reward_balance ∧
      o.state.reward_payouts = s.reward_payouts ∧
      o.events = [Event.ClaimMadeExpertise env.caller c (Hash.sha2 env.caller c)] ∧
      o.transfers = []) := by
  simp only [make_claim_expertise] at h
  split_ifs at h
  split at h
  · simp at h
  · rename_i s4 revs trs heq
    simp only [Except.ok.injEq] at h
    subst h
    obtain ⟨h1, h2, h3⟩ := rpa_ok_spec env env.caller _ s4 revs trs heq hc ha
    refine ⟨h1, fun htr => ?_, fun hntr => ?_⟩
    · obtain ⟨b1, b2, b3, b4⟩ := h2 htr
      exact ⟨b1, b2, by rw [List.cons.injEq]; exact ⟨rfl, b3⟩, b4⟩
    · obtain ⟨b1, b2, b3, b4⟩ := h3 hntr
      exact ⟨b1, b2, by rw [List.cons.injEq]; exact ⟨rfl, b3⟩, b4⟩

lemma make_claim_education_details (env : Env) (c l : List Nat)
    (s : ContractStorage) (o : ClaimOutcome)
    (h : make_claim_education env c l s = .ok o) :
    o.state.claim_details = mapInsert s.claim_details (Hash.sha2 env.caller c)
      { claimtype := 2, claimant := env.caller, claim := c,
        claim_id := Hash.sha2 env.caller c, endorser_count := 0, link := l,
        show_flag := true, endorsers := [env.caller] } := by
  simp only [make_claim_education] at h
  split_ifs at h
  split at h
  · simp at h
  · rename_i s4 revs trs heq
    simp only [Except.ok.injEq] at h
    subst h
    exact (rpa_ok_frame env env.caller _ s4 revs trs heq).1

lemma make_claim_workhistory_details (env : Env) (c l : List Nat)
    (s : ContractStorage) (o : ClaimOutcome)
    (h : make_claim_workhistory env c l s = .ok o) :
    o.state.claim_details = mapInsert s.claim_details (Hash.sha2 env.caller c)
      { claimtype := 1, claimant := env.caller, claim := c,
        claim_id := Hash.sha2 env.caller c, endorser_count := 0, link := l,
        show_flag := true, endorsers := [env.caller] } := by
  simp only [make_claim_workhistory] at h
  split_ifs at h
  split at h
  · simp at h
  · rename_i s4 revs trs heq
    simp only [Except.ok.injEq] at h
    subst h
    exact (rpa_ok_frame env env.caller _ s4 revs trs heq).1

lemma make_claim_gooddeed_details (env : Env) (c l : List Nat)
    (s : ContractStorage) (o : ClaimOutcome)
    (h : make_claim_gooddeed env c l s = .ok o) :
    o.state.claim_details = mapInsert s.claim_details (Hash.sha2 env.caller c)
      { claimtype := 4, claimant := env.caller, claim := c,
        claim_id := Hash.sha2 env.caller c, endorser_count := 0, link := l,
        show_flag := true, endorsers := [env.caller] } := by
  simp only [make_claim_gooddeed] at h
  split_ifs at h
  split at h
  · simp at h
  · rename_i s4 revs trs heq
    simp only [Except.ok.injEq] at h
    subst h
    exact (rpa_ok_frame env env.caller _ s4 revs trs heq).1

lemma make_claim_intellectualproperty_details (env : Env) (c l : List Nat)
    (fp : Hash) (s : ContractStorage) (o : ClaimOutcome)
    (h : make_claim_intellectualproperty env c l fp s = .ok o) :
    o.state.claim_details = mapInsert s.claim_details fp
      { claimtype := 5, claimant := env.caller, claim := c, claim_id := fp,
        endorser_count := 0, link := l, show_flag := true,
        endorsers := [env.caller] } := by
  simp only [make_claim_intellectualproperty] at h
  split_ifs at h
  split at h
  · simp at h
  · rename_i s4 revs trs heq
    simp only [Except.ok.injEq] at h
    subst h
    exact (rpa_ok_frame env env.caller _ s4 revs trs heq).1

-- Claim theorems.

/-- C7: while reward_root_set is not yet 1, set_reward_roots succeeds for
any caller, setting reward_root to the candidate and reward_root_set to 1;
once reward_root_set is 1 it succeeds exactly when the caller equals the
current root (rotation), and fails with PermissionDenied for every other
caller, leaving reward_root and reward_root_set unchanged. -/
theorem set_reward_roots_access_control (env : Env) (newroot : Nat) (s : ContractStorage) :
    (s.reward_root_set ≠ 1 →
      set_reward_roots env newroot s =
        .ok { state := { s with reward_root := newroot, reward_root_set := 1 },
              events := [], transfers := [] }) ∧
    (s.reward_root_set = 1 → env.caller = s.reward_root →
      set_reward_roots env newroot s =
        .ok { state := { s with reward_root := newroot, reward_root_set := 1 },
              events := [], transfers := [] }) ∧
    (s.reward_root_set = 1 → env.caller ≠ s.reward_root →
      runMessage s (set_reward_roots env newroot s) = (s, [], some Error.PermissionDenied)) := by
  unfold set_reward_roots
  refine ⟨fun h => ?_, fun h1 h2 => ?_, fun h1 h2 => ?_⟩
  · rw [if_pos (Or.inl h)]
  · rw [if_pos (Or.inr h2.symm)]
  · rw [if_neg ?_]
    · rfl
    · intro hor
      rcases hor with h | h
      · exact h h1
      · exact h2 h.symm

/-- Witness for C7: on the fresh contract (reward_root_set = 0) a caller
that is not the root successfully claims the root slot. -/
theorem set_reward_roots_access_control_witness :
    set_reward_roots { caller := 5, balance := 0, transfer_ok := true } 9 new =
      .ok { state := { new with reward_root := 9, reward_root_set := 1 },
            events := [], transfers := [] } :=
  (set_reward_roots_access_control { caller := 5, balance := 0, transfer_ok := true } 9 new).1
    (by decide)

/-- C6: endorsing an existing claim whose endorser vector is at capacity
(at least 490 entries, so the source append guard fails) by a caller not in
the vector still emits the endorsement event and returns Ok, while the
whole contract state, in particular the record with its endorser list and
endorser_count, is left unchanged. -/
theorem endorse_at_capacity_event_only (env : Env) (cid : Hash) (s : ContractStorage)
    (d : Details) (hget : mapGet s.claim_details cid = some d)
    (hmem : env.caller ∉ d.endorsers) (hcap : 490 ≤ d.endorsers.length) :
    endorse_claim env cid s =
      .ok { state := s, events := [Event.ClaimEndorsed d.claimant cid env.caller],
            transfers := [] } := by
  have hnl : ¬ d.endorsers.length < 490 := by omega
  simp [endorse_claim, mapContains, hget, hmem, hnl]

set_option maxRecDepth 40000 in
/-- Witness for C6: a record already holding 490 endorsers is endorsed by
account 1000; the call returns Ok with the event and the state unchanged. -/
theorem endorse_at_capacity_event_only_witness :
    endorse_claim { caller := 1000, balance := 0, transfer_ok := true } (Hash.raw 6) c6_s =
      .ok { state := c6_s, events := [Event.ClaimEndorsed c6_d.claimant (Hash.raw 6) 1000],
            transfers := [] } :=
  endorse_at_capacity_event_only { caller := 1000, balance := 0, transfer_ok := true }
    (Hash.raw 6) c6_s c6_d (by decide) (by decide) (by decide)

/-- C8: on an existing claim record (keyed by its own claim_id), a
non-claimant caller gets CallerNotOwner and the state is unchanged; the
claimant gets Ok, the record is re-stored with only show_flag replaced by
the requested value, and no event is emitted. -/
theorem show_or_hide_claim_owner_only (env : Env) (cid : Hash) (b : Bool)
    (s : ContractStorage) (d : Details)
    (hget : mapGet s.claim_details cid = some d) (hid : d.claim_id = cid) :
    (env.caller ≠ d.claimant →
      runMessage s (show_or_hide_claim env cid b s) = (s, [], some Error.CallerNotOwner)) ∧
    (env.caller = d.claimant →
      show_or_hide_claim env cid b s =
        .ok { state :=
                { s with claim_details :=
                    mapInsert s.claim_details cid { d with show_flag := b } },
              events := [], transfers := [] }) := by
  subst hid
  constructor
  · intro h
    simp [show_or_hide_claim, hget, runMessage, Ne.symm h]
  · intro h
    simp [show_or_hide_claim, hget, h.symm]

/-- Witness for C8: the claimant of a stored record toggles it to hidden;
the call returns Ok with the show flag replaced and no event. -/
theorem show_or_hide_claim_owner_only_witness :
    show_or_hide_claim { caller := 2, balance := 0, transfer_ok := true } (Hash.raw 7)
        false c8_s =
      .ok { state :=
              { c8_s with claim_details :=
                  (mapInsert c8_s.claim_details (Hash.raw 7)
                    { c8_d with show_flag := false }) },
            events := [], transfers := [] } :=
  (show_or_hide_claim_owner_only { caller := 2, balance := 0, transfer_ok := true }
    (Hash.raw 7) false c8_s c8_d (by decide) (by decide)).2 (by decide)

/-- C10: a query byte vector that is empty or invalid UTF-8 decodes to the
empty string, the empty-substring containment test accepts every stored
content, and get_matching_claims therefore returns the full record of
every fingerprint in the claim_hashes ledger in insertion order. -/
theorem invalid_query_matches_all (q : List Nat) (s : ContractStorage)
    (h : q = [] ∨ validUtf8 q = false) :
    get_matching_claims q s =
      s.claim_hashes.map (fun h2 => (mapGet s.claim_details h2).getD Details.default) := by
  have hq : string_from_utf8 q = [] := by
    rcases h with h | h
    · subst h; rfl
    · simp [string_from_utf8, h]
  simp [get_matching_claims, hq, matching_loop_nil_needle]

/-- Witness for C10: the single byte 255 is not valid UTF-8, and the scan
over a one-record ledger returns that record. -/
theorem invalid_query_matches_all_witness :
    get_matching_claims [255] c10_s =
      c10_s.claim_hashes.map
        (fun h2 => (mapGet c10_s.claim_details h2).getD Details.default) :=
  invalid_query_matches_all [255] c10_s (Or.inr (by decide))

set_option maxRecDepth 40000 in
/-- C1 counterexample: the record has 490 endorsers, which is fewer than
491, and the caller is not among them, yet endorse_claim returns Ok with
the state completely unchanged: the source appends only while the vector
has fewer than 490 entries, so the list can never reach 491. -/
theorem endorse_at_490_does_not_append :
    c1_details.endorsers.length = 490 ∧ c1_details.endorsers.length < 491 ∧
    c1_env.caller ∉ c1_details.endorsers ∧
    endorse_claim c1_env (Hash.raw 5) c1_s =
      .ok { state := c1_s, events := [Event.ClaimEndorsed 0 (Hash.raw 5) 1000],
            transfers := [] } :=
  ⟨by decide, by decide, by decide, by decide⟩

/-- C1 as amended: endorse_claim appends the caller and increments
endorser_count whenever the endorser vector currently holds fewer than 490
entries (and the caller is not yet an endorser), so the endorser list can
reach 490 entries in total: the claimant plus 489 third-party endorsers. -/
theorem endorse_appends_below_490 (env : Env) (cid : Hash) (s : ContractStorage)
    (d : Details) (hget : mapGet s.claim_details cid = some d)
    (hmem : env.caller ∉ d.endorsers) (hlen : d.endorsers.length < 490)
    (hcnt : d.endorser_count < U128_MAX) (hid : d.claim_id = cid) :
    endorse_claim env cid s =
      .ok { state := { s with claim_details := (mapInsert s.claim_details cid
              { d with endorser_count := d.endorser_count + 1,
                       endorsers := d.endorsers ++ [env.caller] }) },
            events := [Event.ClaimEndorsed d.claimant cid env.caller],
            transfers := [] } := by
  subst hid
  have hsadd : u128_saturating_add d.endorser_count 1 = d.endorser_count + 1 := by
    unfold u128_saturating_add; omega
  simp [endorse_claim, mapContains, hget, hmem, hlen, hsadd]

/-- Witness for the amended C1: endorsing a fresh one-endorser record
appends the caller and bumps the count to 1. -/
theorem endorse_appends_below_490_witness :
    endorse_claim { caller := 5, balance := 0, transfer_ok := true } (Hash.raw 8) c1w_s =
      .ok { state :=
              { c1w_s with claim_details :=
                  (mapInsert c1w_s.claim_details (Hash.raw 8)
                    { c1w_d with endorser_count := c1w_d.endorser_count + 1,
                                 endorsers := c1w_d.endorsers ++ [5] }) },
            events := [Event.ClaimEndorsed c1w_d.claimant (Hash.raw 8) 5],
            transfers := [] } :=
  endorse_appends_below_490 { caller := 5, balance := 0, transfer_ok := true }
    (Hash.raw 8) c1w_s c1w_d (by decide) (by decide) (by decide) (by decide) (by decide)

set_option maxRecDepth 1000000 in
/-- C4 counterexample: when the first submission of a content is the 491st
expertise claim of the account, it succeeds, but resubmitting the same
content fails with DataTooLarge, not DuplicateClaim: the capacity check
precedes the dedup check in the source. -/
theorem duplicate_at_capacity_gives_DataTooLarge :
    (make_claim_expertise c4_env [500] [] c4_s).map
        (fun o => make_claim_expertise c4_env [500] [] o.state) =
      .ok (.error Error.DataTooLarge) := by
  decide

/-- C4 as amended: when the caller holds at most 489 expertise fingerprints
(so the duplicate call itself still passes the capacity check) and the
content is fresh, the first submission succeeds and resubmitting the same
content (any link) fails with DuplicateClaim, with the whole state - in
particular RecordStore, the AccountIndex entry and the GlobalLedger -
unchanged by the failing call. -/
theorem duplicate_claim_rejected_no_change (env : Env) (c l l2 : List Nat)
    (s : ContractStorage)
    (hlen : ((mapGet s.account_claims_expertise env.caller).getD Claims.default).claims.length ≤ 489)
    (hfresh : mapContains s.claim_details (Hash.sha2 env.caller c) = false)
    (ht : env.transfer_ok = true) :
    ∃ o, make_claim_expertise env c l s = .ok o ∧
      runMessage o.state (make_claim_expertise env c l2 o.state) =
        (o.state, [], some Error.DuplicateClaim) := by
  obtain ⟨o, ho⟩ := make_claim_expertise_isOk env c l s (by omega) hfresh ht
  obtain ⟨hcd, hch, hexp, -, -, -, -⟩ := make_claim_expertise_ok_spec env c l s o ho
  refine ⟨o, ho, ?_⟩
  have hlen2 : ((mapGet o.state.account_claims_expertise env.caller).getD
      Claims.default).claims.length ≤ 490 := by
    rw [hexp, mapGet_insert_self]
    simp only [Option.getD_some, List.length_append, List.length_cons, List.length_nil]
    omega
  have hdup2 : mapContains o.state.claim_details (Hash.sha2 env.caller c) = true := by
    rw [mapContains, hcd, mapGet_insert_self]
    rfl
  rw [make_claim_expertise_duplicate env c l2 o.state hlen2 hdup2]
  rfl

/-- Witness for the amended C4: on the fresh contract, submitting content
1 twice from account 7 succeeds then fails with DuplicateClaim, leaving
the state of the first call untouched. -/
theorem duplicate_claim_rejected_no_change_witness :
    ∃ o, make_claim_expertise { caller := 7, balance := 0, transfer_ok := true }
        [1] [2] new = .ok o ∧
      runMessage o.state (make_claim_expertise
          { caller := 7, balance := 0, transfer_ok := true } [1] [3] o.state) =
        (o.state, [], some Error.DuplicateClaim) :=
  duplicate_claim_rejected_no_change { caller := 7, balance := 0, transfer_ok := true }
    [1] [2] [3] new (by decide) (by decide) rfl

/-- C5: a submission returns DataTooLarge exactly when the caller's
expertise AccountIndex entry already holds more than 490 fingerprints (an
error always reverts, so no state is mutated); consequently when the entry
holds exactly 490 fingerprints the 491st submission succeeds, bringing the
entry to 491, and then any further submission in the category fails with
DataTooLarge. -/
theorem expertise_DataTooLarge_iff :
    (∀ (env : Env) (c l : List Nat) (s : ContractStorage),
      make_claim_expertise env c l s = .error Error.DataTooLarge ↔
        490 < ((mapGet s.account_claims_expertise env.caller).getD
          Claims.default).claims.length) ∧
    (∀ (env : Env) (c l c2 l2 : List Nat) (s : ContractStorage),
      ((mapGet s.account_claims_expertise env.caller).getD
        Claims.default).claims.length = 490 →
      mapContains s.claim_details (Hash.sha2 env.caller c) = false →
      env.transfer_ok = true →
      (make_claim_expertise env c l s).map (fun o =>
        (((mapGet o.state.account_claims_expertise env.caller).getD
            Claims.default).claims.length,
          make_claim_expertise env c2 l2 o.state)) =
        .ok (491, .error Error.DataTooLarge)) := by
  constructor
  · intro env c l s
    constructor
    · intro h
      by_contra hle
      push_neg at hle
      simp only [make_claim_expertise] at h
      rw [if_neg (by omega)] at h
      by_cases hdup : mapContains s.claim_details (Hash.sha2 env.caller c) = true
      · rw [if_pos hdup] at h
        simp at h
      · rw [if_neg hdup] at h
        split at h
        · rename_i e heq
          simp only [Except.error.injEq] at h
          subst h
          have hpf := rpa_error_only_payout env env.caller _ _ heq
          simp at hpf
        · simp at h
    · intro h
      exact make_claim_expertise_over_capacity env c l s h
  · intro env c l c2 l2 s hlen hfresh ht
    obtain ⟨o, ho⟩ := make_claim_expertise_isOk env c l s (by omega) hfresh ht
    obtain ⟨hcd, hch, hexp, -, -, -, -⟩ := make_claim_expertise_ok_spec env c l s o ho
    rw [ho]
    have hlen2 : ((mapGet o.state.account_claims_expertise env.caller).getD
        Claims.default).claims.length = 491 := by
      rw [hexp, mapGet_insert_self]
      simp only [Option.getD_some, List.length_append, List.length_cons, List.length_nil]
      omega
    simp only [Except.map, Except.ok.injEq, Prod.mk.injEq]
    exact ⟨hlen2, make_claim_expertise_over_capacity env c2 l2 o.state (by omega)⟩

set_option maxRecDepth 1000000 in
/-- Witness for C5: from the 490-claim boundary state, the 491st
submission succeeds and brings the index entry to 491, after which a
further (distinct-content) submission fails with DataTooLarge. -/
theorem expertise_DataTooLarge_iff_witness :
    (make_claim_expertise c4_env [500] [] c4_s).map (fun o =>
      (((mapGet o.state.account_claims_expertise c4_env.caller).getD
          Claims.default).claims.length,
        make_claim_expertise c4_env [1] [] o.state)) =
      .ok (491, .error Error.DataTooLarge) :=
  expertise_DataTooLarge_iff.2 c4_env [500] [] [1] [] c4_s (by decide) (by decide) rfl

set_option maxRecDepth 1000000 in
/-- C9 counterexample: content 9 is accepted as an expertise claim, but
resubmitting it as an education claim returns DataTooLarge (not
DuplicateClaim) because the account already has 491 education entries and
the capacity check precedes the dedup check. -/
theorem cross_category_dup_at_capacity_gives_DataTooLarge :
    (make_claim_expertise c9_env [9] [] c9_s).map
        (fun o => make_claim_education c9_env [9] [] o.state) =
      .ok (.error Error.DataTooLarge) := by
  decide

/-- C9 as amended: once the fingerprint of (caller, content) is in the
shared record table, resubmitting the identical content in any other
keyword category fails with DuplicateClaim provided the caller's
AccountIndex entry in the target category holds at most 490 fingerprints
(otherwise DataTooLarge fires first); in every case the submission is
rejected, so the same content can never be registered by one caller under
two keyword categories. -/
theorem cross_category_duplicate_rejected (env : Env) (c l : List Nat)
    (s : ContractStorage)
    (hdup : mapContains s.claim_details (Hash.sha2 env.caller c) = true) :
    (((mapGet s.account_claims_education env.caller).getD
        Claims.default).claims.length ≤ 490 →
      make_claim_education env c l s = .error Error.DuplicateClaim) ∧
    (((mapGet s.account_claims_workhistory env.caller).getD
        Claims.default).claims.length ≤ 490 →
      make_claim_workhistory env c l s = .error Error.DuplicateClaim) ∧
    (((mapGet s.account_claims_gooddeeds env.caller).getD
        Claims.default).claims.length ≤ 490 →
      make_claim_gooddeed env c l s = .error Error.DuplicateClaim) ∧
    (∀ o, make_claim_education env c l s ≠ .ok o) ∧
    (∀ o, make_claim_workhistory env c l s ≠ .ok o) ∧
    (∀ o, make_claim_gooddeed env c l s ≠ .ok o) := by
  refine ⟨fun h => make_claim_education_duplicate env c l s h hdup,
          fun h => make_claim_workhistory_duplicate env c l s h hdup,
          fun h => make_claim_gooddeed_duplicate env c l s h hdup, ?_, ?_, ?_⟩
  · intro o h
    simp only [make_claim_education] at h
    split_ifs at h
  · intro o h
    simp only [make_claim_workhistory] at h
    split_ifs at h
  · intro o h
    simp only [make_claim_gooddeed] at h
    split_ifs at h

/-- Witness for the amended C9: content 1, already registered as an
expertise claim of account 7, is rejected as an education claim with
DuplicateClaim. -/
theorem cross_category_duplicate_rejected_witness :
    make_claim_education { caller := 7, balance := 0, transfer_ok := true } [1] [] c9w_s =
      .error Error.DuplicateClaim :=
  (cross_category_duplicate_rejected { caller := 7, balance := 0, transfer_ok := true }
    [1] [] c9w_s (by decide)).1 (by decide)

/-- C3 counterexample: the empty registry satisfies the endorser-count
invariant, yet a visibility toggle by the all-zero account (the value of
AccountId::default, whose claimant check passes against the
unwrap_or_default record) on a nonexistent fingerprint succeeds and
inserts a record with endorser_count = 0 and an empty endorser list, for
which endorser_count = number of endorsers minus one fails. -/
theorem visibility_zero_caller_breaks_endorser_invariant :
    storeInv new ∧
    show_or_hide_claim { caller := 0, balance := 0, transfer_ok := true }
        (Hash.raw 3) true new =
      .ok { state := { new with claim_details := [(Hash.raw 3, c3_degenerate)] },
            events := [], transfers := [] } ∧
    c3_degenerate.endorser_count = 0 ∧ c3_degenerate.endorsers.length = 0 ∧
    ¬ storeInv { new with claim_details := [(Hash.raw 3, c3_degenerate)] } :=
  ⟨by decide, by decide, by decide, by decide, by decide⟩

/-- C3 as amended: every stored record satisfies endorser_count + 1 =
number of endorsers (the count excludes the claimant, who is stored as the
first endorser); a freshly created expertise record has endorsers =
claimant only and endorser_count = 0, and the invariant is preserved by
every submission (all five categories), by every endorsement (appending or
at capacity), and by every visibility toggle whose fingerprint exists in
the record table or whose caller is not the all-zero account (the all-zero
caller on a missing fingerprint inserts a degenerate record, see the
counterexample). -/
theorem endorser_count_invariant_preserved :
    (∀ (env : Env) (c l : List Nat) (s : ContractStorage) (o : ClaimOutcome),
      storeInv s → make_claim_expertise env c l s = .ok o →
        storeInv o.state ∧
        mapGet o.state.claim_details (Hash.sha2 env.caller c) =
          some (expertise_claim_record env c l)) ∧
    (∀ (env : Env) (c l : List Nat) (s : ContractStorage) (o : ClaimOutcome),
      storeInv s → make_claim_education env c l s = .ok o → storeInv o.state) ∧
    (∀ (env : Env) (c l : List Nat) (s : ContractStorage) (o : ClaimOutcome),
      storeInv s → make_claim_workhistory env c l s = .ok o → storeInv o.state) ∧
    (∀ (env : Env) (c l : List Nat) (s : ContractStorage) (o : ClaimOutcome),
      storeInv s → make_claim_gooddeed env c l s = .ok o → storeInv o.state) ∧
    (∀ (env : Env) (c l : List Nat) (fp : Hash) (s : ContractStorage) (o : ClaimOutcome),
      storeInv s → make_claim_intellectualproperty env c l fp s = .ok o →
        storeInv o.state) ∧
    (∀ (env : Env) (cid : Hash) (s : ContractStorage) (o : ClaimOutcome),
      storeInv s → endorse_claim env cid s = .ok o → storeInv o.state) ∧
    (∀ (env : Env) (cid : Hash) (b : Bool) (s : ContractStorage) (o : ClaimOutcome),
      storeInv s → (mapContains s.claim_details cid = true ∨ env.caller ≠ 0) →
      show_or_hide_claim env cid b s = .ok o → storeInv o.state) := by
  refine ⟨?_, ?_, ?_, ?_, ?_, ?_, ?_⟩
  · intro env c l s o hs h
    obtain ⟨hcd, -, -, -, -, -, -⟩ := make_claim_expertise_ok_spec env c l s o h
    refine ⟨?_, ?_⟩
    · unfold storeInv
      rw [hcd]
      exact claim_details_inv_insert hs rfl
    · rw [hcd, mapGet_insert_self]
  · intro env c l s o hs h
    unfold storeInv
    rw [make_claim_education_details env c l s o h]
    exact claim_details_inv_insert hs rfl
  · intro env c l s o hs h
    unfold storeInv
    rw [make_claim_workhistory_details env c l s o h]
    exact claim_details_inv_insert hs rfl
  · intro env c l s o hs h
    unfold storeInv
    rw [make_claim_gooddeed_details env c l s o h]
    exact claim_details_inv_insert hs rfl
  · intro env c l fp s o hs h
    unfold storeInv
    rw [make_claim_intellectualproperty_details env c l fp s o h]
    exact claim_details_inv_insert hs rfl
  · intro env cid s o hs h
    obtain ⟨d, hget⟩ : ∃ d, mapGet s.claim_details cid = some d := by
      rcases h2 : mapGet s.claim_details cid with _ | d
      · simp only [endorse_claim, mapContains, h2] at h
        simp at h
      · exact ⟨d, rfl⟩
    have hd : d.endorser_count + 1 = d.endorsers.length :=
      hs _ (mapGet_mem _ _ _ hget)
    simp only [endorse_claim, mapContains, hget, Option.isSome_some, Option.getD_some,
      if_true] at h
    by_cases hm : env.caller ∈ d.endorsers
    · rw [if_pos hm] at h
      simp at h
    · rw [if_neg hm] at h
      simp only [Except.ok.injEq] at h
      subst h
      by_cases hlen : d.endorsers.length < 490
      · simp only [if_pos hlen]
        unfold storeInv
        apply claim_details_inv_insert hs
        have hcnt : d.endorser_count < U128_MAX := by
          have := U128_MAX_large
          omega
        simp only [u128_saturating_add_one_of_lt hcnt, List.length_append,
          List.length_cons, List.length_nil]
        omega
      · simp only [if_neg hlen]
        exact hs
  · intro env cid b s o hs hok h
    simp only [show_or_hide_claim] at h
    rcases hd : mapGet s.claim_details cid with _ | d
    · rw [hd] at h
      rcases hok with hc | hc
      · rw [mapContains, hd] at hc
        simp at hc
      · rw [if_neg ?_] at h
        · simp at h
        · simp only [Option.getD_none, Details.default]
          exact fun hh => hc hh.symm
    · rw [hd] at h
      simp only [Option.getD_some] at h
      by_cases hcl : d.claimant = env.caller
      · rw [if_pos hcl] at h
        simp only [Except.ok.injEq] at h
        subst h
        unfold storeInv
        apply claim_details_inv_insert hs
        have hdinv : d.endorser_count + 1 = d.endorsers.length :=
          hs _ (mapGet_mem _ _ _ hd)
        simpa using hdinv
      · rw [if_neg hcl] at h
        simp at h

/-- Witness for the amended C3: the one-record state of account 2
satisfies the invariant, and after the claimant's visibility toggle the
resulting state still satisfies it. -/
theorem endorser_count_invariant_preserved_witness :
    storeInv { c8_s with claim_details :=
      (mapInsert c8_s.claim_details (Hash.raw 7) { c8_d with show_flag := false }) } :=
  endorser_count_invariant_preserved.2.2.2.2.2.2
    { caller := 2, balance := 0, transfer_ok := true } (Hash.raw 7) false c8_s
    { state := { c8_s with claim_details :=
        (mapInsert c8_s.claim_details (Hash.raw 7) { c8_d with show_flag := false }) },
      events := [], transfers := [] }
    (by decide) (Or.inl (by decide)) (by decide)

/-- C2: after an accepted expertise submission the hook increments
claim_counter by one, and it pays out - transferring exactly the reward
amount to the caller, debiting reward_balance, crediting reward_payouts
and appending the reward event - precisely when the program is enabled,
the reward balance strictly exceeds the amount, the contract balance
strictly exceeds amount + 10, and the incremented counter is a multiple of
a nonzero interval (reward_trigger); checked_rem_euclid of a zero interval
is none, so interval 0 never triggers and divides by nothing; and in the
concrete interval-5 scenario four submissions pay no reward while five pay
exactly one. -/
theorem reward_hook_payout_spec :
    (∀ (env : Env) (c l : List Nat) (s : ContractStorage),
      ((mapGet s.account_claims_expertise env.caller).getD
        Claims.default).claims.length ≤ 490 →
      mapContains s.claim_details (Hash.sha2 env.caller c) = false →
      env.transfer_ok = true →
      s.claim_counter < U128_MAX →
      s.reward_amount + 10 ≤ U128_MAX →
      s.reward_payouts + s.reward_amount ≤ U128_MAX →
      ∃ o, make_claim_expertise env c l s = .ok o ∧
        o.state.claim_counter = s.claim_counter + 1 ∧
        (reward_trigger env s →
          o.transfers = [(env.caller, s.reward_amount)] ∧
          o.state.reward_balance = s.reward_balance - s.reward_amount ∧
          o.state.reward_payouts = s.reward_payouts + s.reward_amount ∧
          o.events = [Event.ClaimMadeExpertise env.caller c (Hash.sha2 env.caller c),
                      Event.AccountRewardedLifeAndWork env.caller s.reward_amount]) ∧
        (¬ reward_trigger env s →
          o.transfers = [] ∧
          o.state.reward_balance = s.reward_balance ∧
          o.state.reward_payouts = s.reward_payouts ∧
          o.events = [Event.ClaimMadeExpertise env.caller c (Hash.sha2 env.caller c)])) ∧
    (∀ a : Nat, u128_checked_rem_euclid a 0 = none) ∧
    (run_claims_expertise c2_env c2_s5 [[0], [1], [2], [3]]).map
        (fun p => count_reward_events p.2) = .ok 0 ∧
    (run_claims_expertise c2_env c2_s5 [[0], [1], [2], [3], [4]]).map
        (fun p => count_reward_events p.2) = .ok 1 := by
  refine ⟨?_, fun a => rfl, by decide, by decide⟩
  intro env c l s hlen hfresh ht hc ha hp
  obtain ⟨o, ho⟩ := make_claim_expertise_isOk env c l s hlen hfresh ht
  obtain ⟨h1, h2, h3⟩ := make_claim_expertise_reward_spec env c l s o ho hc ha
  have hps : u128_saturating_add s.reward_payouts s.reward_amount =
      s.reward_payouts + s.reward_amount := by
    unfold u128_saturating_add
    omega
  refine ⟨o, ho, h1, fun htr => ?_, fun hn => ?_⟩
  · obtain ⟨b1, b2, b3, b4⟩ := h2 htr
    exact ⟨b4, b1, by rw [b2, hps], b3⟩
  · obtain ⟨b1, b2, b3, b4⟩ := h3 hn
    exact ⟨b4, b1, b2, b3⟩

/-- Witness for C2: on the interval-1 configuration the submission of
content 1 by account 7 pays out 100 immediately. -/
theorem reward_hook_payout_spec_witness :
    ∃ o, make_claim_expertise { caller := 7, balance := 10000, transfer_ok := true }
        [1] [] c2w_s = .ok o ∧
      o.state.claim_counter = c2w_s.claim_counter + 1 ∧
      (reward_trigger { caller := 7, balance := 10000, transfer_ok := true } c2w_s →
        o.transfers = [(7, c2w_s.reward_amount)] ∧
        o.state.reward_balance = c2w_s.reward_balance - c2w_s.reward_amount ∧
        o.state.reward_payouts = c2w_s.reward_payouts + c2w_s.reward_amount ∧
        o.events = [Event.ClaimMadeExpertise 7 [1] (Hash.sha2 7 [1]),
                    Event.AccountRewardedLifeAndWork 7 c2w_s.reward_amount]) ∧
      (¬ reward_trigger { caller := 7, balance := 10000, transfer_ok := true } c2w_s →
        o.transfers = [] ∧
        o.state.reward_balance = c2w_s.reward_balance ∧
        o.state.reward_payouts = c2w_s.reward_payouts ∧
        o.events = [Event.ClaimMadeExpertise 7 [1] (Hash.sha2 7 [1])]) :=
  reward_hook_payout_spec.1 { caller := 7, balance := 10000, transfer_ok := true }
    [1] [] c2w_s (by decide) (by decide) rfl (by decide) (by decide) (by decide)

end life_and_work
